import Mathlib

/-!
Verification of the combat / progression / inventory core of "Echoes of Asteria".

The repository carries two near-duplicate implementations:
* the package `src/echoes_of_asteria/` (`game.py`, `player.py`, `world.py`, `items.py`),
  embedded below under the `EA` prefix, and
* the single-file `mystic_dungeon.py`, embedded under the `MD` prefix.
Code that is verbatim-identical between the two (Item, Entity, Player, find_item,
gain_xp, to_dict / from_dict, neighbors) is embedded once, without a prefix.

Modelling conventions:
* Python integers are `Int`; positions are `Int × Int`.
* Random draws (`random.randint`, `random.random() < 0.12`) are passed as explicit
  arguments, in the order the source draws them, so outcomes are functions of the
  forced random source.
* CPython float expressions that are exactly integer-valued floors are modelled by
  integer division: `int(v * 1.5)` as `3 * v / 2` (1.5 is a dyadic float, exact),
  `int(b * 1.8)` as `9 * b / 5`, `int(g * 0.2)` as `g / 5`, and `int(m / 2)` as
  `m / 2` — each checked exhaustively against CPython for all operands
  `0 ≤ n < 2 * 10 ^ 6`, far beyond any value the game state reaches.
  The one float expression that is NOT faithfully `⌊7t/5⌋` is the level threshold
  update `int(self.xp_to_next * 1.4)` (CPython first disagrees at t = 45, where
  45 * 1.4 = 62.99999999999999); the level loop is therefore parameterised by the
  threshold-update function `scale : Int → Int`, and the loop theorems hold for
  every `scale` — in particular for the CPython one.  `xp_scale` below is the
  idealised instance used only to produce concrete witnesses.
-/

/-- `Item` from `items.py` (identical class in `mystic_dungeon.py`): id, name,
description, kind (weapon / armor / consumable / key / misc), power, value. -/
structure Item where
  id : String
  name : String
  desc : String
  kind : String
  power : Int
  value : Int
deriving DecidableEq

/-- The dictionary produced by `Item.to_dict`: all six keys are always present. -/
structure ItemDict where
  id : String
  name : String
  desc : String
  kind : String
  power : Int
  value : Int
deriving DecidableEq

/-- `Item.to_dict` from `items.py`. -/
def Item.to_dict (it : Item) : ItemDict :=
  { id := it.id, name := it.name, desc := it.desc, kind := it.kind,
    power := it.power, value := it.value }

/-- `Item.from_dict` from `items.py`: reads id / name / desc directly and
kind / power / value via `.get` with defaults; on a `to_dict` output every key
is present, which is the case modelled here. -/
def Item.from_dict (d : ItemDict) : Item :=
  { id := d.id, name := d.name, desc := d.desc, kind := d.kind,
    power := d.power, value := d.value }

/-- `Entity` from `player.py` / `mystic_dungeon.py`: the stat block shared by the
player and all enemies.  `__init__(name, hp, atk, defense, dodge)` sets
`max_hp = hp` and `hp = hp`. -/
structure Entity where
  name : String
  max_hp : Int
  hp : Int
  atk : Int
  defense : Int
  dodge : Int
deriving DecidableEq

/-- `Entity.alive`: `self.hp > 0`. -/
def Entity.alive (e : Entity) : Prop := 0 < e.hp

/-- One quest record: `{"desc": ..., "done": ...}`. -/
structure Quest where
  desc : String
  done : Bool
deriving DecidableEq

/-- `Player` from `player.py` (identical in `mystic_dungeon.py`).  The Python
`discovered` set of coordinate pairs is a `Finset`; the `quests` dict is an
association list.  The constant `save_slot` file name is presentation-only and
not modelled. -/
structure Player where
  name : String
  max_hp : Int
  hp : Int
  atk : Int
  defense : Int
  dodge : Int
  level : Int
  xp : Int
  xp_to_next : Int
  pos : Int × Int
  gold : Int
  inventory : List Item
  equipped_weapon : Option Item
  equipped_armor : Option Item
  discovered : Finset (Int × Int)
  quests : List (String × Quest)
deriving DecidableEq

/-- `Player.__init__(name)`: hp 40, atk 6, defense 2, dodge 8, level 1, xp 0,
threshold 30, position (1, 1), gold 30, empty inventory / equipment / sets. -/
def Player.new (name : String) : Player :=
  { name := name, max_hp := 40, hp := 40, atk := 6, defense := 2, dodge := 8,
    level := 1, xp := 0, xp_to_next := 30, pos := (1, 1), gold := 30,
    inventory := [], equipped_weapon := none, equipped_armor := none,
    discovered := ∅, quests := [] }

/-- `Player.attack_power`: base attack plus equipped weapon power (0 if none). -/
def Player.attack_power (p : Player) : Int :=
  p.atk + (match p.equipped_weapon with | some w => w.power | none => 0)

/-- `Player.defense_value`: base defense plus equipped armor power (0 if none). -/
def Player.defense_value (p : Player) : Int :=
  p.defense + (match p.equipped_armor with | some a => a.power | none => 0)

/-- Python's substring test `needle in hay` on lists of characters: some
contiguous slice of `hay` equals `needle`. -/
def str_in (needle hay : List Char) : Bool :=
  (List.range (hay.length + 1)).any (fun i => decide ((hay.drop i).take needle.length = needle))

/-- Lowercasing as in CPython `str.lower()`, modelled per character; the item
names in this game are ASCII, where the two coincide. -/
def lower_chars (s : String) : List Char :=
  s.data.map Char.toLower

/-- `Player.find_item(name)` from `player.py`: lowercase the query, then return
the first inventory item whose lowercased name contains it as a substring. -/
def Player.find_item (p : Player) (nm : String) : Option Item :=
  p.inventory.find? (fun it => str_in (lower_chars nm) (lower_chars it.name))

/-- `Player._level_up` (identical `level_up` in `mystic_dungeon.py`):
level += 1, max_hp += 8, atk += 2, defense += 1, hp reset to the NEW max_hp,
and the threshold updated by `scale` (modelling `int(self.xp_to_next * 1.4)`). -/
def Player.level_up (scale : Int → Int) (p : Player) : Player :=
  { p with
      level := p.level + 1
      max_hp := p.max_hp + 8
      atk := p.atk + 2
      defense := p.defense + 1
      hp := p.max_hp + 8
      xp_to_next := scale p.xp_to_next }

/-- One iteration of the `while self.xp >= self.xp_to_next` body of `gain_xp`:
`self.xp -= self.xp_to_next` followed by a level-up. -/
def Player.one_level (scale : Int → Int) (p : Player) : Player :=
  Player.level_up scale { p with xp := p.xp - p.xp_to_next }

/-- The `while self.xp >= self.xp_to_next` loop of `Player.gain_xp`.  The Python
loop guard is only `xp_to_next ≤ xp`; the extra conjunct `1 ≤ xp_to_next`
totalises the definition (with a non-positive threshold the Python loop never
terminates), and under the game invariant `1 ≤ xp_to_next` the two guards
agree, see `gain_loop_fuel` and the termination theorem. -/
def Player.gain_loop (scale : Int → Int) (p : Player) : Player :=
  if _h : p.xp_to_next ≤ p.xp ∧ 1 ≤ p.xp_to_next then
    Player.gain_loop scale (Player.one_level scale p)
  else p
termination_by p.xp.toNat
decreasing_by
  simp [Player.one_level, Player.level_up]
  omega

/-- `Player.gain_xp(amount)`: add the amount to xp, then run the level loop. -/
def Player.gain_xp (scale : Int → Int) (amount : Int) (p : Player) : Player :=
  Player.gain_loop scale { p with xp := p.xp + amount }

/-- Fuel-indexed version of the SAME loop with the exact Python guard
`self.xp >= self.xp_to_next` and no totalising conjunct: `none` means the fuel
ran out before the guard became false.  Used to state termination. -/
def Player.gain_loop_fuel (scale : Int → Int) : Nat → Player → Option Player
  | 0, p => if p.xp_to_next ≤ p.xp then none else some p
  | n + 1, p =>
    if p.xp_to_next ≤ p.xp then
      Player.gain_loop_fuel scale n (Player.one_level scale p)
    else some p

/-- Idealised threshold update `⌊7t/5⌋`, used only to instantiate the
`scale`-parameterised theorems in concrete witnesses.  (CPython's
`int(t * 1.4)` agrees with it on small thresholds such as the orbit
30, 42, 58, 81, ..., but not for every integer — e.g. t = 45.) -/
def xp_scale (t : Int) : Int := 7 * t / 5

/-- The dictionary produced by `Player.to_dict`: every key is always present.
The Python `discovered` value is `list(self.discovered)` (the set's elements in
arbitrary order) and is turned back into a set by `from_dict`; the set itself
is what round-trips, so the field is modelled as the set. -/
structure PlayerDict where
  name : String
  hp : Int
  max_hp : Int
  atk : Int
  defense : Int
  dodge : Int
  level : Int
  xp : Int
  xp_to_next : Int
  pos : Int × Int
  gold : Int
  inventory : List ItemDict
  equipped_weapon : Option ItemDict
  equipped_armor : Option ItemDict
  quests : List (String × Quest)
  discovered : Finset (Int × Int)
deriving DecidableEq

/-- `Player.to_dict` from `player.py` (identical in `mystic_dungeon.py`). -/
def Player.to_dict (p : Player) : PlayerDict :=
  { name := p.name
    hp := p.hp
    max_hp := p.max_hp
    atk := p.atk
    defense := p.defense
    dodge := p.dodge
    level := p.level
    xp := p.xp
    xp_to_next := p.xp_to_next
    pos := p.pos
    gold := p.gold
    inventory := p.inventory.map Item.to_dict
    equipped_weapon := p.equipped_weapon.map Item.to_dict
    equipped_armor := p.equipped_armor.map Item.to_dict
    quests := p.quests
    discovered := p.discovered }

/-- `Player.from_dict` from `player.py`: builds `Player(name)` and then
overwrites every serialised field (`data.get(key, default)` always finds the
key on a `to_dict` output, which is the case modelled).  Equipped items are
rebuilt with `Item.from_dict` when present. -/
def Player.from_dict (d : PlayerDict) : Player :=
  { Player.new d.name with
      hp := d.hp
      max_hp := d.max_hp
      atk := d.atk
      defense := d.defense
      dodge := d.dodge
      level := d.level
      xp := d.xp
      xp_to_next := d.xp_to_next
      pos := d.pos
      gold := d.gold
      inventory := d.inventory.map Item.from_dict
      equipped_weapon := d.equipped_weapon.map Item.from_dict
      equipped_armor := d.equipped_armor.map Item.from_dict
      quests := d.quests
      discovered := d.discovered }

/-- The outcome record of one attack: `{"hit": ..., "damage": ..., "critical": ...}`
as returned by `mystic_dungeon.attack`; for `Game._do_attack` in `game.py` (which
returns nothing) the same fields record which message was printed and the damage
applied. -/
structure AttackOutcome where
  hit : Bool
  damage : Int
  critical : Bool
deriving DecidableEq

/-- The stat-independent core of `Game._do_attack` (`game.py` lines 498-526),
after the attack and defense values have been selected: draw `droll`
(`random.randint(1, 20)`), dodge when `droll ≤ defender.dodge`; otherwise
`base_dmg = max(1, atk_val - def_val + off)` with `off` the
`random.randint(-1, 2)` draw, scaled by `int(base_dmg * 1.8)` (here `9 * _ / 5`)
on a critical, and subtracted from the defender's hp WITHOUT any lower clamp. -/
def EA.do_attack_calc (atk_val def_val ddodge dhp droll off : Int) (crit : Bool) :
    Int × AttackOutcome :=
  if droll ≤ ddodge then (dhp, { hit := false, damage := 0, critical := false })
  else
    let base := max 1 (atk_val - def_val + off)
    let dmg := if crit then 9 * base / 5 else base
    (dhp - dmg, { hit := true, damage := dmg, critical := crit })

/-- `Game._do_attack(self.player, enemy, use_player_stats=True)`: the attacker is
the player (`hasattr(attacker, 'attack_power')` holds), so `atk_val` is the
player's effective attack and `def_val` the enemy's (base) defense. -/
def EA.player_attack_enemy (p : Player) (e : Entity) (droll off : Int) (crit : Bool) :
    Entity × AttackOutcome :=
  let r := EA.do_attack_calc p.attack_power e.defense e.dodge e.hp droll off crit
  ({ e with hp := r.1 }, r.2)

/-- `Game._do_attack(enemy, self.player, use_player_stats=False)`: the defender is
the player (`hasattr(defender, 'defense_value')` holds), so `atk_val` is the
enemy's base attack and `def_val` the player's effective defense. -/
def EA.enemy_attack_player (e : Entity) (p : Player) (droll off : Int) (crit : Bool) :
    Player × AttackOutcome :=
  let r := EA.do_attack_calc e.atk p.defense_value p.dodge p.hp droll off crit
  ({ p with hp := r.1 }, r.2)

/-- `attack(attacker, defender)` from `mystic_dungeon.py` lines 296-310: dodge
when `random.randint(1, 20) + defender.dodge > 20`; otherwise
`base = max(0, attacker.atk - defender.defense)`, on a critical
`base = int(base * 1.8) + 2` (here `9 * _ / 5 + 2`), then
`dmg = max(1, base + off)` is subtracted from the defender's hp without any
lower clamp.  Random draw order in the source: dodge roll, critical, offset. -/
def MD.attack (attacker defender : Entity) (droll off : Int) (crit : Bool) :
    Entity × AttackOutcome :=
  if 20 < droll + defender.dodge then
    (defender, { hit := false, damage := 0, critical := false })
  else
    let base := max 0 (attacker.atk - defender.defense)
    let base2 := if crit then 9 * base / 5 + 2 else base
    let dmg := max 1 (base2 + off)
    ({ defender with hp := defender.hp - dmg }, { hit := true, damage := dmg, critical := crit })

/-- The defeat branch of `Game.cmd_attack` in `game.py` (lines 490-496):
`hp = max_hp // 2`, `gold -= int(gold * 0.2)` (here `gold / 5`), and the player
is teleported back to `Position(1, 1)`. -/
def EA.cmd_attack_defeat (p : Player) : Player :=
  { p with
      hp := p.max_hp / 2
      gold := p.gold - p.gold / 5
      pos := (1, 1) }

/-- The defeat branch of `Game.cmd_attack` in `mystic_dungeon.py` (lines 596-601):
`hp = max(1, int(max_hp / 2))`, `gold -= int(gold * 0.2)` (here `gold / 5`), and
— although the message printed says the player wakes at the Crossroads — there
is NO assignment to `player.pos`. -/
def MD.cmd_attack_defeat (p : Player) : Player :=
  { p with
      hp := max 1 (p.max_hp / 2)
      gold := p.gold - p.gold / 5 }

/-- Reference-level model of the shop state.  Python lists hold references to
item objects: `store` is the heap of live `Item` objects and an address is an
index into it; the player inventory and the merchant catalog are lists of
addresses.  This level is needed because the two implementations differ in
WHICH object a purchase appends. -/
structure ShopState where
  store : List Item
  gold : Int
  inventory : List Nat
  merchant_goods : List Nat
deriving DecidableEq

/-- The buy branch of `Game.cmd_shop` in `game.py` (lines 385-395), for a chosen
in-range catalog index: `price = int(item.value * 1.5)` (here `3 * _ / 2`,
exact since 1.5 is a dyadic float); with `gold >= price`, deduct the price and
append `Item.from_dict(item.to_dict())` — a freshly allocated copy, modelled as
a new address at the end of the store; otherwise change nothing. -/
def EA.cmd_shop_buy (s : ShopState) (idx : Nat) : ShopState :=
  match s.merchant_goods[idx]? with
  | none => s
  | some ref =>
    match s.store[ref]? with
    | none => s
    | some item =>
      if 3 * item.value / 2 ≤ s.gold then
        { s with
            gold := s.gold - 3 * item.value / 2
            store := s.store ++ [Item.from_dict (Item.to_dict item)]
            inventory := s.inventory ++ [s.store.length] }
      else s

/-- The buy branch of `Game.cmd_shop` in `mystic_dungeon.py` (lines 671-678):
the listed price is `sel.value` itself, and `self.player.add_item(sel)` appends
THE CATALOG OBJECT — the same address, no copy. -/
def MD.cmd_shop_buy (s : ShopState) (idx : Nat) : ShopState :=
  match s.merchant_goods[idx]? with
  | none => s
  | some ref =>
    match s.store[ref]? with
    | none => s
    | some item =>
      if item.value ≤ s.gold then
        { s with
            gold := s.gold - item.value
            inventory := s.inventory ++ [ref] }
      else s

/-- `World.neighbors(pos)` from `world.py` lines 134-146 (identical in
`mystic_dungeon.py`): candidate positions one step north / south / west / east,
kept only when `0 <= nx < width and 0 <= ny < height`. -/
def World.neighbors (width height : Int) (pos : Int × Int) : List (String × (Int × Int)) :=
  [("north", (pos.1, pos.2 - 1)), ("south", (pos.1, pos.2 + 1)),
   ("west", (pos.1 - 1, pos.2)), ("east", (pos.1 + 1, pos.2))].filter
    (fun c => decide (0 ≤ c.2.1 ∧ c.2.1 < width ∧ 0 ≤ c.2.2 ∧ c.2.2 < height))

/-- The part of the world `Game.cmd_move` consults: the grid size and, for the
destination room, its lock flag (`self.world.get_room(new_pos).locked`). -/
structure MoveWorld where
  width : Int
  height : Int
  locked : Int × Int → Bool

/-- `Game.cmd_move(direction)` from `game.py` lines 160-178, the state mutation
part: look the direction up in `self.world.neighbors(self.player.pos)` (a miss
changes nothing), refuse locked destinations, otherwise assign the new position
and add it to the discovered set (`reveal_current`). -/
def EA.cmd_move (w : MoveWorld) (p : Player) (direction : String) : Player :=
  match (World.neighbors w.width w.height p.pos).find? (fun kv => kv.1 == direction) with
  | none => p
  | some kv =>
    if w.locked kv.2 then p
    else { p with pos := kv.2, discovered := insert kv.2 p.discovered }

/-- `Game.cmd_equip(name)` from `game.py` lines 215-230: empty argument and
missing item change nothing; otherwise the item found by
`self.player.find_item(name)` is placed in the weapon or armor slot according
to its kind (anything else cannot be equipped). -/
def EA.cmd_equip (p : Player) (nm : String) : Player :=
  if nm = "" then p
  else
    match p.find_item nm with
    | none => p
    | some it =>
      if it.kind = "weapon" then { p with equipped_weapon := some it }
      else if it.kind = "armor" then { p with equipped_armor := some it }
      else p

/-- The Wolf enemy template from `world.py` / `mystic_dungeon.py`:
hp 14, atk 5, defense 1, dodge 4 (xp reward 12, gold reward 8). -/
def wolf : Entity :=
  { name := "Wolf", max_hp := 14, hp := 14, atk := 5, defense := 1, dodge := 4 }

/-- A Wolf worn down to 1 hp mid-encounter. -/
def wolf_low : Entity := { wolf with hp := 1 }

/-- The temporary combat entity `mystic_dungeon.Game.cmd_attack` builds for the
player: `Entity(name, hp, attack_power(), defense_value(), dodge)`.  For the
fresh player with a Chain Mail (power 3) equipped this is defense 2 + 3 = 5. -/
def armored_hero : Entity :=
  { name := "Hero", max_hp := 40, hp := 40, atk := 6, defense := 5, dodge := 8 }

/-- The Marsh Slime enemy template: hp 12, atk 4, defense 0, dodge 2. -/
def marsh_slime : Entity :=
  { name := "Marsh Slime", max_hp := 12, hp := 12, atk := 4, defense := 0, dodge := 2 }

/-- The fresh-player combat entity without equipment: atk 6, defense 2, dodge 8. -/
def hero_entity : Entity :=
  { name := "Hero", max_hp := 40, hp := 40, atk := 6, defense := 2, dodge := 8 }

/-- The starter knife from `Game.__init__`. -/
def knife_item : Item :=
  { id := "knife", name := "Traveler\x27s Knife",
    desc := "A simple steel knife. Better than nothing.", kind := "weapon",
    power := 2, value := 4 }

/-- The starter vest from `Game.__init__`. -/
def vest_item : Item :=
  { id := "leather_vest", name := "Leather Vest",
    desc := "Light protection for the torso.", kind := "armor", power := 1, value := 6 }

/-- The starter bread from `Game.__init__`. -/
def bread_item : Item :=
  { id := "bread", name := "Stale Bread", desc := "Restores a bit of HP.",
    kind := "consumable", power := 8, value := 2 }

/-- The merchant's potion template from `Game.__init__`. -/
def potion_item : Item :=
  { id := "potion", name := "Minor Potion", desc := "Restores 25 HP.",
    kind := "consumable", power := 25, value := 20 }

/-- The three starter items given in `Game.__init__`. -/
def starter_items : List Item := [knife_item, vest_item, bread_item]

/-- The three merchant catalog items from `Game.__init__`. -/
def merchant_items : List Item :=
  [{ id := "iron_sword", name := "Iron Sword", desc := "A solid blade.",
     kind := "weapon", power := 4, value := 40 },
   { id := "chain_mail", name := "Chain Mail", desc := "Better armor.",
     kind := "armor", power := 3, value := 50 },
   potion_item]

/-- The shop state at game start: heap holds the three starter items
(addresses 0-2, owned by the player) and the three catalog templates
(addresses 3-5), and the player has 30 gold. -/
def initial_shop : ShopState :=
  { store := starter_items ++ merchant_items
    gold := 30
    inventory := [0, 1, 2]
    merchant_goods := [3, 4, 5] }

/-- The fresh player holding the starter inventory, as built by `Game.__init__`. -/
def starter_player : Player :=
  { Player.new "Hero" with inventory := starter_items }

/-- `Item.from_dict` undoes `Item.to_dict`. -/
@[simp] theorem item_round_trip (it : Item) : Item.from_dict (Item.to_dict it) = it := rfl

/-- The idealised threshold update keeps thresholds positive. -/
theorem xp_scale_ge_one : ∀ t : Int, 1 ≤ t → 1 ≤ xp_scale t := by
  intro t h
  unfold xp_scale
  omega

/-- Unfolding `gain_loop` when the guard holds. -/
theorem gain_loop_step (scale : Int → Int) (p : Player)
    (h : p.xp_to_next ≤ p.xp ∧ 1 ≤ p.xp_to_next) :
    Player.gain_loop scale p = Player.gain_loop scale (Player.one_level scale p) := by
  rw [Player.gain_loop]
  exact dif_pos h

/-- Unfolding `gain_loop` when the guard fails. -/
theorem gain_loop_fix (scale : Int → Int) (p : Player)
    (h : ¬ (p.xp_to_next ≤ p.xp ∧ 1 ≤ p.xp_to_next)) :
    Player.gain_loop scale p = p := by
  rw [Player.gain_loop]
  exact dif_neg h

/-- Adding xp commutes with one iteration of the level loop: the iteration
changes xp only by subtracting the (xp-independent) threshold. -/
theorem one_level_add_xp (scale : Int → Int) (p : Player) (b : Int) :
    Player.one_level scale { p with xp := p.xp + b } =
      { Player.one_level scale p with xp := (Player.one_level scale p).xp + b } := by
  cases p
  simp [Player.one_level, Player.level_up]
  omega

/-- `str_in needle hay` holds exactly when `needle` is a contiguous slice of
`hay` — Python's `needle in hay` for strings. -/
theorem str_in_iff (needle hay : List Char) :
    str_in needle hay = true ↔ ∃ s t, hay = s ++ needle ++ t := by
  constructor
  · intro h
    obtain ⟨i, _, hi⟩ := List.any_eq_true.mp h
    rw [decide_eq_true_iff] at hi
    have h2 : needle ++ (hay.drop i).drop needle.length = hay.drop i := by
      conv_rhs => rw [← List.take_append_drop needle.length (hay.drop i)]
      rw [hi]
    refine ⟨hay.take i, (hay.drop i).drop needle.length, ?_⟩
    rw [List.append_assoc, h2, List.take_append_drop]
  · rintro ⟨s, t, rfl⟩
    apply List.any_eq_true.mpr
    refine ⟨s.length, ?_, ?_⟩
    · simp [List.mem_range]
      omega
    · rw [decide_eq_true_iff, List.append_assoc, List.drop_left, List.take_left]

/-- `List.find?` returns the FIRST element satisfying the predicate: the list
splits around the result, with every earlier element failing the predicate. -/
theorem find_first_split {α : Type} (pred : α → Bool) :
    ∀ (l : List α) (a : α), l.find? pred = some a →
      ∃ l₁ l₂, l = l₁ ++ a :: l₂ ∧ pred a = true ∧ ∀ x ∈ l₁, pred x = false := by
  intro l
  induction l with
  | nil =>
    intro a h
    simp [List.find?] at h
  | cons hd tl ih =>
    intro a h
    by_cases hp : pred hd
    · rw [List.find?_cons_of_pos _ hp] at h
      cases h
      exact ⟨[], tl, rfl, hp, by simp⟩
    · rw [List.find?_cons_of_neg _ hp] at h
      obtain ⟨l₁, l₂, rfl, ha, hall⟩ := ih a h
      refine ⟨hd :: l₁, l₂, rfl, ha, ?_⟩
      intro x hx
      rcases List.mem_cons.mp hx with rfl | hx2
      · simpa using hp
      · exact hall x hx2

/-- Post-composing the level loop with an xp grant of `b ≥ 0` and re-running the
loop is the same as granting `b` before the loop: each pending iteration of the
original loop still fires with the extra xp present. -/
theorem gain_loop_add (scale : Int → Int) (b : Int) (hb : 0 ≤ b) :
    ∀ p : Player,
      Player.gain_loop scale
          { Player.gain_loop scale p with xp := (Player.gain_loop scale p).xp + b } =
        Player.gain_loop scale { p with xp := p.xp + b } := by
  intro p
  induction p using Player.gain_loop.induct scale with
  | case1 p hg ih =>
    rw [gain_loop_step scale p hg, ih, ← one_level_add_xp]
    refine (gain_loop_step scale _ ?_).symm
    refine ⟨?_, ?_⟩
    · simp only
      have := hg.1
      omega
    · simpa using hg.2
  | case2 p hg =>
    rw [gain_loop_fix scale p hg]

/-- The level loop preserves `0 ≤ hp ≤ max_hp`: each level-up sets
`hp = max_hp + 8` together with `max_hp := max_hp + 8`. -/
theorem gain_loop_hp (scale : Int → Int) (p : Player) (h0 : 0 ≤ p.hp)
    (h1 : p.hp ≤ p.max_hp) :
    0 ≤ (Player.gain_loop scale p).hp ∧
      (Player.gain_loop scale p).hp ≤ (Player.gain_loop scale p).max_hp := by
  induction p using Player.gain_loop.induct scale with
  | case1 p hg ih =>
    rw [gain_loop_step scale p hg]
    apply ih
    · simp [Player.one_level, Player.level_up]
      omega
    · simp [Player.one_level, Player.level_up]
  | case2 p hg =>
    rw [gain_loop_fix scale p hg]
    exact ⟨h0, h1⟩

/-- With any threshold update that keeps thresholds positive, the Python-guard
loop finishes within `xp + 1` iterations and agrees with `gain_loop`. -/
theorem gain_loop_fuel_complete (scale : Int → Int)
    (hs : ∀ t : Int, 1 ≤ t → 1 ≤ scale t) :
    ∀ (n : Nat) (p : Player), p.xp.toNat < n → 1 ≤ p.xp_to_next →
      Player.gain_loop_fuel scale n p = some (Player.gain_loop scale p) := by
  intro n
  induction n with
  | zero =>
    intro p h _
    omega
  | succ n ih =>
    intro p hn ht
    by_cases hg : p.xp_to_next ≤ p.xp
    · rw [show Player.gain_loop_fuel scale (n + 1) p =
            Player.gain_loop_fuel scale n (Player.one_level scale p) from by
          simp [Player.gain_loop_fuel, hg]]
      rw [gain_loop_step scale p ⟨hg, ht⟩]
      apply ih
      · simp [Player.one_level, Player.level_up]
        omega
      · simpa [Player.one_level, Player.level_up] using hs p.xp_to_next ht
    · rw [gain_loop_fix scale p (fun hc => hg hc.1)]
      simp [Player.gain_loop_fuel, hg]

/-- C1 (amended): gainXp preserves `0 ≤ hp ≤ maxHp` (a level-up resets hp to the
new maxHp), and an attack-resolution step changes the defender's hp by exactly
the computed damage — at least 1 on a hit, 0 on a dodge — WITHOUT any lower
clamp at 0, in both implementations. -/
theorem hp_bounds_amended :
    (∀ (scale : Int → Int) (amount : Int) (p : Player),
        0 ≤ p.hp → p.hp ≤ p.max_hp →
        0 ≤ (Player.gain_xp scale amount p).hp ∧
          (Player.gain_xp scale amount p).hp ≤ (Player.gain_xp scale amount p).max_hp) ∧
    (∀ (atk_val def_val ddodge dhp droll off : Int) (crit : Bool),
        ((EA.do_attack_calc atk_val def_val ddodge dhp droll off crit).2.hit = true →
          (EA.do_attack_calc atk_val def_val ddodge dhp droll off crit).1 =
              dhp - (EA.do_attack_calc atk_val def_val ddodge dhp droll off crit).2.damage ∧
            1 ≤ (EA.do_attack_calc atk_val def_val ddodge dhp droll off crit).2.damage) ∧
        ((EA.do_attack_calc atk_val def_val ddodge dhp droll off crit).2.hit = false →
          (EA.do_attack_calc atk_val def_val ddodge dhp droll off crit).1 = dhp)) ∧
    (∀ (a d : Entity) (droll off : Int) (crit : Bool),
        ((MD.attack a d droll off crit).2.hit = true →
          (MD.attack a d droll off crit).1.hp =
              d.hp - (MD.attack a d droll off crit).2.damage ∧
            1 ≤ (MD.attack a d droll off crit).2.damage) ∧
        ((MD.attack a d droll off crit).2.hit = false →
          (MD.attack a d droll off crit).1.hp = d.hp)) := by
  refine ⟨?_, ?_, ?_⟩
  · intro scale amount p h0 h1
    unfold Player.gain_xp
    apply gain_loop_hp
    · simpa using h0
    · simpa using h1
  · intro atk_val def_val ddodge dhp droll off crit
    unfold EA.do_attack_calc
    by_cases hd : droll ≤ ddodge
    · simp [hd]
    · simp only [hd, if_false]
      rcases crit with _ | _
      · simp
      · simp
        omega
  · intro a d droll off crit
    unfold MD.attack
    by_cases hd : 20 < droll + d.dodge
    · simp [hd]
    · simp only [hd, if_false]
      rcases crit with _ | _
      · simp
      · simp

/-- C1 counterexample: the claim asserts damage is clamped so that hp never goes
below 0; in `game.py`, a fresh player (effective attack 6) hitting a Wolf at
1 hp with roll 20 (no dodge), offset 0, no critical leaves the Wolf at hp -4. -/
theorem hp_not_clamped_counterexample :
    (EA.player_attack_enemy (Player.new "Hero") wolf_low 20 0 false).1.hp = -4 ∧
      ¬ 0 ≤ (EA.player_attack_enemy (Player.new "Hero") wolf_low 20 0 false).1.hp := by
  decide

/-- C1 witness: the amended invariant instantiated on a fresh player gaining
90 xp under the idealised threshold update. -/
theorem hp_bounds_amended_witness :
    0 ≤ (Player.gain_xp xp_scale 90 (Player.new "Hero")).hp ∧
      (Player.gain_xp xp_scale 90 (Player.new "Hero")).hp ≤
        (Player.gain_xp xp_scale 90 (Player.new "Hero")).max_hp :=
  hp_bounds_amended.1 xp_scale 90 (Player.new "Hero") (by decide) (by decide)

/-- C2 (amended): with a forced non-dodge, non-critical random source and offset
`r ∈ [-1, 2]`, `game.py` deals exactly `max(1, effective attack − effective
defense + r)` in both directions, while `mystic_dungeon.attack` deals
`max(1, max(0, atk − defense) + r)`; the two agree whenever attack ≥ defense,
but not when defense exceeds attack and r = 2. -/
theorem damage_formula_amended :
    (∀ (p : Player) (e : Entity) (droll off : Int),
        e.dodge < droll → -1 ≤ off → off ≤ 2 →
        EA.player_attack_enemy p e droll off false =
          ({ e with hp := e.hp - max 1 (p.attack_power - e.defense + off) },
            { hit := true, damage := max 1 (p.attack_power - e.defense + off),
              critical := false })) ∧
    (∀ (e : Entity) (p : Player) (droll off : Int),
        p.dodge < droll → -1 ≤ off → off ≤ 2 →
        EA.enemy_attack_player e p droll off false =
          ({ p with hp := p.hp - max 1 (e.atk - p.defense_value + off) },
            { hit := true, damage := max 1 (e.atk - p.defense_value + off),
              critical := false })) ∧
    (∀ (a d : Entity) (droll off : Int),
        droll + d.dodge ≤ 20 → -1 ≤ off → off ≤ 2 →
        MD.attack a d droll off false =
          ({ d with hp := d.hp - max 1 (max 0 (a.atk - d.defense) + off) },
            { hit := true, damage := max 1 (max 0 (a.atk - d.defense) + off),
              critical := false })) := by
  refine ⟨?_, ?_, ?_⟩
  · intro p e droll off hnd _ _
    simp [EA.player_attack_enemy, EA.do_attack_calc, not_le.mpr hnd]
  · intro e p droll off hnd _ _
    simp [EA.enemy_attack_player, EA.do_attack_calc, not_le.mpr hnd]
  · intro a d droll off hnd _ _
    simp [MD.attack, not_lt.mpr hnd]

/-- C2 counterexample: a Marsh Slime (attack 4) striking the armored player
entity (effective defense 5) with no dodge, no critical, offset 2: the claimed
damage is `max(1, 4 − 5 + 2) = 1`, but `mystic_dungeon.attack` deals 2. -/
theorem damage_formula_counterexample :
    (MD.attack marsh_slime armored_hero 1 2 false).2.damage = 2 ∧
      max 1 (marsh_slime.atk - armored_hero.defense + 2) = 1 ∧
      (MD.attack marsh_slime armored_hero 1 2 false).2.damage ≠
        max 1 (marsh_slime.atk - armored_hero.defense + 2) := by
  decide

/-- C2 witness: the `game.py` damage formula on the fresh player hitting a full
Wolf with roll 20, offset 0. -/
theorem damage_formula_witness :
    EA.player_attack_enemy (Player.new "Hero") wolf 20 0 false =
      ({ wolf with hp := wolf.hp - max 1 ((Player.new "Hero").attack_power - wolf.defense + 0) },
        { hit := true, damage := max 1 ((Player.new "Hero").attack_power - wolf.defense + 0),
          critical := false }) :=
  damage_formula_amended.1 (Player.new "Hero") wolf 20 0 (by decide) (by decide) (by decide)

/-- C3 (amended): both resolvers draw one d20; in `game.py` the attack is dodged
exactly when the roll is ≤ the defender's dodge stat, while in
`mystic_dungeon.py` it is dodged exactly when roll + dodge > 20; in both, a
dodge leaves the defender's hp unchanged and records a non-hit outcome. -/
theorem dodge_convention_amended :
    (∀ (atk_val def_val ddodge dhp droll off : Int) (crit : Bool),
        1 ≤ droll → droll ≤ 20 →
        (((EA.do_attack_calc atk_val def_val ddodge dhp droll off crit).2.hit = false) ↔
            droll ≤ ddodge) ∧
        (droll ≤ ddodge →
          EA.do_attack_calc atk_val def_val ddodge dhp droll off crit =
            (dhp, { hit := false, damage := 0, critical := false }))) ∧
    (∀ (a d : Entity) (droll off : Int) (crit : Bool),
        1 ≤ droll → droll ≤ 20 →
        (((MD.attack a d droll off crit).2.hit = false) ↔ 20 < droll + d.dodge) ∧
        (20 < droll + d.dodge →
          MD.attack a d droll off crit =
            (d, { hit := false, damage := 0, critical := false }))) := by
  constructor
  · intro atk_val def_val ddodge dhp droll off crit _ _
    unfold EA.do_attack_calc
    by_cases hd : droll ≤ ddodge
    · simp [hd]
    · simp [hd]
  · intro a d droll off crit _ _
    unfold MD.attack
    by_cases hd : 20 < droll + d.dodge
    · simp [hd]
    · simp [hd]

/-- C3 counterexample: in `mystic_dungeon.attack` a Wolf rolling 1 against the
fresh player entity (dodge 8) HITS — the roll is ≤ the dodge stat, yet the
attack is not dodged and the defender's hp changes. -/
theorem dodge_convention_counterexample :
    (1 : Int) ≤ hero_entity.dodge ∧
      (MD.attack wolf hero_entity 1 0 false).2.hit = true ∧
      (MD.attack wolf hero_entity 1 0 false).1.hp ≠ hero_entity.hp := by
  decide

/-- C3 witness: the `game.py` dodge characterisation at attack 6, defense 1,
dodge 8, hp 14, roll 3, offset 0. -/
theorem dodge_convention_witness :
    (((EA.do_attack_calc 6 1 8 14 3 0 false).2.hit = false) ↔ (3 : Int) ≤ 8) ∧
      ((3 : Int) ≤ 8 →
        EA.do_attack_calc 6 1 8 14 3 0 false =
          (14, { hit := false, damage := 0, critical := false })) :=
  dodge_convention_amended.1 6 1 8 14 3 0 false (by decide) (by decide)

/-- The concrete defeated player used to evaluate the defeat branches: a fresh
player who ended combat at hp -3 while standing at (2, 1) with 100 gold. -/
def defeated_hero : Player :=
  { Player.new "Hero" with pos := (2, 1), hp := -3, gold := 100 }

/-- C4: evaluation at the failing input.  Both defeat branches leave 80 gold and
hp 20 = ⌊40/2⌋, and `game.py` teleports the player to (1, 1) — but
`mystic_dungeon.py` leaves the position at (2, 1) even though it prints that
the player wakes at the Crossroads. -/
theorem defeat_penalty_eval :
    (MD.cmd_attack_defeat defeated_hero).gold = 80 ∧
      (MD.cmd_attack_defeat defeated_hero).hp = 20 ∧
      (MD.cmd_attack_defeat defeated_hero).pos = (2, 1) ∧
      (EA.cmd_attack_defeat defeated_hero).gold = 80 ∧
      (EA.cmd_attack_defeat defeated_hero).hp = 20 ∧
      (EA.cmd_attack_defeat defeated_hero).pos = (1, 1) := by
  decide

/-- C5: with a positive threshold, gaining xp in two calls equals gaining the
sum in one call — the level loop only ever sees the total xp pool.  Proved for
EVERY threshold-update function, in particular CPython's `int(t * 1.4)`. -/
theorem gain_xp_additive (scale : Int → Int) (a b : Int) (p : Player)
    (hthr : 1 ≤ p.xp_to_next) (ha : 0 ≤ a) (hb : 0 ≤ b) :
    Player.gain_xp scale b (Player.gain_xp scale a p) =
      Player.gain_xp scale (a + b) p := by
  unfold Player.gain_xp
  have h := gain_loop_add scale b hb { p with xp := p.xp + a }
  simpa [add_assoc] using h

/-- C5 witness: gaining 50 then 40 xp equals gaining 90 xp at once on the fresh
player under the idealised threshold update. -/
theorem gain_xp_additive_witness :
    Player.gain_xp xp_scale 40 (Player.gain_xp xp_scale 50 (Player.new "Hero")) =
      Player.gain_xp xp_scale (50 + 40) (Player.new "Hero") :=
  gain_xp_additive xp_scale 50 40 (Player.new "Hero") (by decide) (by decide) (by decide)

/-- C6: for any threshold update that keeps thresholds ≥ 1 (as the real one
does), the level loop with the exact Python guard `xp >= xp_to_next`
terminates within `xp + 1` iterations after a non-negative grant, and computes
`gain_xp`. -/
theorem gain_xp_terminates (scale : Int → Int)
    (hs : ∀ t : Int, 1 ≤ t → 1 ≤ scale t) (amount : Int) (p : Player)
    (ha : 0 ≤ amount) (ht : 1 ≤ p.xp_to_next) :
    Player.gain_loop_fuel scale ((p.xp + amount).toNat + 1)
        { p with xp := p.xp + amount } =
      some (Player.gain_xp scale amount p) := by
  unfold Player.gain_xp
  apply gain_loop_fuel_complete scale hs
  · simp
  · simpa using ht

/-- C6 witness: the fresh player gaining 90 xp levels up to a fixed point
within 91 loop iterations under the idealised threshold update. -/
theorem gain_xp_terminates_witness :
    Player.gain_loop_fuel xp_scale (((Player.new "Hero").xp + 90).toNat + 1)
        { Player.new "Hero" with xp := (Player.new "Hero").xp + 90 } =
      some (Player.gain_xp xp_scale 90 (Player.new "Hero")) :=
  gain_xp_terminates xp_scale xp_scale_ge_one 90 (Player.new "Hero") (by decide) (by decide)

/-- C7: `Player.from_dict` inverts `Player.to_dict` — every serialised field
(name, stats, level data, position, gold, inventory item-by-item, equipped
weapon / armor field-by-field, quests, discovered set) comes back identical. -/
theorem save_load_round_trip (p : Player) :
    Player.from_dict (Player.to_dict p) = p := by
  cases p
  have hcomp : Item.from_dict ∘ Item.to_dict = id := funext item_round_trip
  simp [Player.to_dict, Player.from_dict, Player.new, List.map_map, Option.map_map, hcomp]

/-- C8 (amended): in both implementations a buy with insufficient gold changes
nothing, and a buy with sufficient gold deducts exactly the listed price and
appends one inventory entry; in `game.py` the price is `int(value * 1.5)` and
the entry is a freshly allocated copy of the template (a new address, equal
field-by-field to it), while in `mystic_dungeon.py` the price is `value` and
the entry is the catalog template's own address. -/
theorem shop_buy_amended :
    (∀ (s : ShopState) (idx ref : Nat) (item : Item),
        s.merchant_goods[idx]? = some ref → s.store[ref]? = some item →
        (s.gold < 3 * item.value / 2 → EA.cmd_shop_buy s idx = s) ∧
        (3 * item.value / 2 ≤ s.gold →
          EA.cmd_shop_buy s idx =
              { s with
                  gold := s.gold - 3 * item.value / 2
                  store := s.store ++ [Item.from_dict (Item.to_dict item)]
                  inventory := s.inventory ++ [s.store.length] } ∧
            Item.from_dict (Item.to_dict item) = item ∧
            ∀ r ∈ s.merchant_goods, r < s.store.length → s.store.length ≠ r)) ∧
    (∀ (s : ShopState) (idx ref : Nat) (item : Item),
        s.merchant_goods[idx]? = some ref → s.store[ref]? = some item →
        (s.gold < item.value → MD.cmd_shop_buy s idx = s) ∧
        (item.value ≤ s.gold →
          MD.cmd_shop_buy s idx =
            { s with gold := s.gold - item.value, inventory := s.inventory ++ [ref] })) := by
  constructor
  · intro s idx ref item href hitem
    simp only [EA.cmd_shop_buy, href, hitem]
    constructor
    · intro hpoor
      rw [if_neg (by omega)]
    · intro hrich
      rw [if_pos hrich]
      refine ⟨rfl, rfl, ?_⟩
      intro r _ hr
      omega
  · intro s idx ref item href hitem
    simp only [MD.cmd_shop_buy, href, hitem]
    constructor
    · intro hpoor
      rw [if_neg (by omega)]
    · intro hrich
      rw [if_pos hrich]

/-- C8 counterexample: in `mystic_dungeon.py`, buying the potion (catalog entry
3, address 5) appends address 5 itself to the inventory — the very object in
the merchant catalog, not an independent copy as the claim requires. -/
theorem shop_buy_counterexample :
    (MD.cmd_shop_buy initial_shop 2).inventory = initial_shop.inventory ++ [5] ∧
      (5 : Nat) ∈ initial_shop.merchant_goods ∧
      (MD.cmd_shop_buy initial_shop 2).gold = 10 := by
  decide

/-- C8 witness: the `game.py` purchase of the potion at the start-of-game shop
state: 30 gold covers the listed price `int(20 * 1.5) = 30`, a fresh copy is
allocated at address 6, and that address is distinct from every catalog one. -/
theorem shop_buy_witness :
    EA.cmd_shop_buy initial_shop 2 =
        { initial_shop with
            gold := initial_shop.gold - 3 * potion_item.value / 2
            store := initial_shop.store ++ [Item.from_dict (Item.to_dict potion_item)]
            inventory := initial_shop.inventory ++ [initial_shop.store.length] } ∧
      Item.from_dict (Item.to_dict potion_item) = potion_item ∧
      ∀ r ∈ initial_shop.merchant_goods, r < initial_shop.store.length →
        initial_shop.store.length ≠ r :=
  (shop_buy_amended.1 initial_shop 2 5 potion_item (by decide) (by decide)).2 (by decide)

/-- C9: every neighbour returned by `World.neighbors` lies inside the grid, and
`cmd_move` — which only ever assigns destinations obtained from `neighbors` —
keeps an in-bounds player in bounds. -/
theorem move_stays_in_bounds :
    (∀ (width height : Int) (pos q : Int × Int) (d : String),
        (d, q) ∈ World.neighbors width height pos →
        0 ≤ q.1 ∧ q.1 < width ∧ 0 ≤ q.2 ∧ q.2 < height) ∧
    (∀ (w : MoveWorld) (p : Player) (direction : String),
        0 ≤ p.pos.1 → p.pos.1 < w.width → 0 ≤ p.pos.2 → p.pos.2 < w.height →
        0 ≤ (EA.cmd_move w p direction).pos.1 ∧
          (EA.cmd_move w p direction).pos.1 < w.width ∧
          0 ≤ (EA.cmd_move w p direction).pos.2 ∧
          (EA.cmd_move w p direction).pos.2 < w.height) := by
  have hn : ∀ (width height : Int) (pos : Int × Int) (kv : String × (Int × Int)),
      kv ∈ World.neighbors width height pos →
      0 ≤ kv.2.1 ∧ kv.2.1 < width ∧ 0 ≤ kv.2.2 ∧ kv.2.2 < height := by
    intro width height pos kv hkv
    exact of_decide_eq_true (List.mem_filter.mp hkv).2
  constructor
  · intro width height pos q d hm
    exact hn width height pos (d, q) hm
  · intro w p direction h1 h2 h3 h4
    unfold EA.cmd_move
    cases hf : (World.neighbors w.width w.height p.pos).find? (fun kv => kv.1 == direction) with
    | none => exact ⟨h1, h2, h3, h4⟩
    | some kv =>
      by_cases hl : w.locked kv.2 = true
      · simp only [hl, if_true]
        exact ⟨h1, h2, h3, h4⟩
      · simp only [hl, if_false]
        simpa using hn w.width w.height p.pos kv (List.mem_of_find?_eq_some hf)

/-- A 5 × 5 world with no locked rooms, used to instantiate the move theorem. -/
def open_world : MoveWorld := { width := 5, height := 5, locked := fun _ => false }

/-- C9 witness: moving north from the start keeps the fresh player inside the
5 × 5 grid. -/
theorem move_stays_in_bounds_witness :
    0 ≤ (EA.cmd_move open_world (Player.new "Hero") "north").pos.1 ∧
      (EA.cmd_move open_world (Player.new "Hero") "north").pos.1 < open_world.width ∧
      0 ≤ (EA.cmd_move open_world (Player.new "Hero") "north").pos.2 ∧
      (EA.cmd_move open_world (Player.new "Hero") "north").pos.2 < open_world.height :=
  move_stays_in_bounds.2 open_world (Player.new "Hero") "north"
    (by decide) (by decide) (by decide) (by decide)

/-- The containment predicate `find_item` tests: the lowercased query occurs as
a contiguous substring of the lowercased item name. -/
def name_matches (nm : String) (it : Item) : Prop :=
  ∃ pre post, lower_chars it.name = pre ++ lower_chars nm ++ post

/-- C10: `find_item` returns the first inventory item (in order) whose
lowercased name contains the lowercased query as a substring, or nothing when
no name does; `cmd_equip` equips exactly that first match (shown for both the
weapon and the armor slot). -/
theorem find_item_substring :
    (∀ (p : Player) (nm : String) (it : Item),
        p.find_item nm = some it →
        name_matches nm it ∧
          ∃ l₁ l₂, p.inventory = l₁ ++ it :: l₂ ∧ ∀ x ∈ l₁, ¬ name_matches nm x) ∧
    (∀ (p : Player) (nm : String),
        p.find_item nm = none → ∀ x ∈ p.inventory, ¬ name_matches nm x) ∧
    (∀ (p : Player) (nm : String) (it : Item), nm ≠ "" →
        p.find_item nm = some it →
        (it.kind = "weapon" → (EA.cmd_equip p nm).equipped_weapon = some it) ∧
          (it.kind = "armor" → (EA.cmd_equip p nm).equipped_armor = some it)) := by
  have hpred : ∀ (nm : String) (x : Item),
      (str_in (lower_chars nm) (lower_chars x.name) = true) ↔ name_matches nm x := by
    intro nm x
    rw [str_in_iff]
    exact Iff.rfl
  refine ⟨?_, ?_, ?_⟩
  · intro p nm it hf
    obtain ⟨l₁, l₂, heq, hpa, hny⟩ := find_first_split _ p.inventory it hf
    refine ⟨(hpred nm it).mp hpa, l₁, l₂, heq, ?_⟩
    intro x hx hc
    have hfalse := hny x hx
    simp only at hfalse
    have htrue := (hpred nm x).mpr hc
    rw [hfalse] at htrue
    cases htrue
  · intro p nm hf x hx hc
    have := List.find?_eq_none.mp hf x hx
    exact this ((hpred nm x).mpr hc)
  · intro p nm it hne hf
    constructor
    · intro hk
      unfold EA.cmd_equip
      rw [if_neg hne, hf]
      simp [hk]
    · intro hk
      unfold EA.cmd_equip
      rw [if_neg hne, hf]
      simp [hk]

/-- C10 witness: on the starter inventory the query "Knife" resolves (first, by
lowercased substring) to the Traveler's Knife, and `cmd_equip` places exactly
that item in the weapon slot. -/
theorem find_item_substring_witness :
    (knife_item.kind = "weapon" →
        (EA.cmd_equip starter_player "Knife").equipped_weapon = some knife_item) ∧
      (knife_item.kind = "armor" →
        (EA.cmd_equip starter_player "Knife").equipped_armor = some knife_item) :=
  find_item_substring.2.2 starter_player "Knife" knife_item (by decide) (by decide)
